import Mathlib

/-!
Verification development for the parsing core of
plugins/modules/oracle_gi_facts.py: the command-runner wrapper
(exec_program_lines / exec_program), the record parsers (get_networks,
get_vips, get_scans, local_listener, scan_listener), the cross-reference
resolution of listeners against the VIP and SCAN mappings, and the
version/mode detection of main.  Python dictionaries are modelled as
insertion-ordered association lists, Python exceptions as an explicit
error type, and each regular expression of the source as an executable
matching function with leftmost-match and greedy-group semantics.
-/

namespace OracleGiFacts

/-- Characters of a Python string. -/
abbrev Chars := List Char

/-- Whitespace characters recognised by Python strip on bytes. -/
def pyWhitespace (c : Char) : Bool :=
  c = ' ' || c = '\t' || c = '\n' || c = '\r' || c = '\x0b' || c = '\x0c'

/-- Drop leading Python whitespace. -/
def stripLeft : Chars → Chars
  | [] => []
  | c :: cs => if pyWhitespace c then stripLeft cs else c :: cs

/-- Python strip: remove whitespace at both ends. -/
def pyStrip (s : String) : String :=
  String.mk ((stripLeft (stripLeft s.toList).reverse).reverse)

/-- Python bytes splitlines: split on LF, CR and CRLF, with no trailing empty line. -/
def splitlinesAux : Chars → Chars → List String
  | [], acc => if acc.isEmpty then [] else [String.mk acc.reverse]
  | '\r' :: '\n' :: rest, acc => String.mk acc.reverse :: splitlinesAux rest []
  | '\r' :: rest, acc => String.mk acc.reverse :: splitlinesAux rest []
  | '\n' :: rest, acc => String.mk acc.reverse :: splitlinesAux rest []
  | c :: rest, acc => splitlinesAux rest (c :: acc)

/-- Python splitlines on a whole string. -/
def pySplitlines (s : String) : List String :=
  splitlinesAux s.toList []

/-- Python startswith. -/
def pyStartswith (pre line : String) : Bool :=
  pre.toList.isPrefixOf line.toList

/-- Python lower on ASCII strings. -/
def pyLower (s : String) : String :=
  String.mk (s.toList.map Char.toLower)

/-- Python split with a one-character separator, on character lists. -/
def splitCharAux (sep : Char) : Chars → List Chars
  | [] => [[]]
  | c :: rest =>
      if c = sep then [] :: splitCharAux sep rest
      else
        match splitCharAux sep rest with
        | [] => [[c]]
        | h :: t => (c :: h) :: t

/-- Python split with a one-character separator. -/
def pySplitChar (s : String) (sep : Char) : List String :=
  (splitCharAux sep s.toList).map String.mk

/-- Python find for a single character: index of its first occurrence. -/
def findChar (c : Char) : Chars → Option Nat
  | [] => none
  | x :: rest => if x = c then some 0 else (findChar c rest).map (· + 1)

/-- Python slice s[a:b] for nonnegative bounds. -/
def pySlice (s : String) (a b : Nat) : String :=
  String.mk ((s.toList.drop a).take (b - a))

/-- Python slice s[a:]. -/
def pyDrop (s : String) (a : Nat) : String :=
  String.mk (s.toList.drop a)

/-- All indices at which pat occurs in s. -/
def occList (pat s : Chars) : List Nat :=
  (List.range (s.length + 1)).filter (fun i => pat.isPrefixOf (s.drop i))

/-- Leftmost occurrence of pat in s. -/
def firstOcc (pat s : Chars) : Option Nat :=
  (occList pat s).head?

/-- Python substring containment test. -/
def pyContainsSub (sub s : String) : Bool :=
  (firstOcc sub.toList s.toList).isSome

/-- First index in the list at which f yields a value, together with that value. -/
def firstSomeIdx (f : Nat → Option α) : List Nat → Option α
  | [] => none
  | i :: is =>
      match f i with
      | some v => some v
      | none => firstSomeIdx f is

/-- Last index in the list satisfying p. -/
def lastValid (p : Nat → Bool) (l : List Nat) : Option Nat :=
  (l.filter p).getLast?

/-- Maximal leading run of ASCII digits. -/
def digitRun (cs : Chars) : Chars :=
  cs.takeWhile Char.isDigit

/-- Digit-or-dot character class of the version pattern. -/
def dotDigit (c : Char) : Bool :=
  c.isDigit || c = '.'

/-- Address family captured by the SCAN VIP pattern, IPv4 or IPv6. -/
inductive Fam where
  | v4
  | v6
deriving DecidableEq

/-- Match of the pattern Network ([0-9]+) exists at start index i: the digit
group must be followed by a space and the word exists, and the run is maximal
because a digit cannot also start the literal that follows. -/
def netExistsAt (s : Chars) (i : Nat) : Option String :=
  let rest := s.drop (i + 8)
  let r := digitRun rest
  if r.isEmpty then none
  else if " exists".toList.isPrefixOf (rest.drop r.length) then some (String.mk r)
  else none

/-- re.search of Network ([0-9]+) exists over the whole line (get_networks). -/
def netExistsOf (line : String) : Option String :=
  firstSomeIdx (netExistsAt line.toList) (occList "Network ".toList line.toList)

/-- Match of the pattern network number ([0-9]+), at start index i. -/
def netNumAt (s : Chars) (i : Nat) : Option String :=
  let rest := s.drop (i + 15)
  let r := digitRun rest
  if r.isEmpty then none
  else if (rest.drop r.length).head? = some ',' then some (String.mk r)
  else none

/-- re.search of network number ([0-9]+), over the whole line (get_vips). -/
def netNumOf (line : String) : Option String :=
  firstSomeIdx (netNumAt line.toList) (occList "network number ".toList line.toList)

/-- re.search of Endpoints: (.+) over the line: everything after the leftmost
occurrence of the label, nonempty, taken greedily to the end of the line. -/
def endpoints19cOf (line : String) : Option String :=
  match firstOcc "Endpoints: ".toList line.toList with
  | none => none
  | some i =>
      let g := line.toList.drop (i + 11)
      if g.isEmpty then none else some (String.mk g)

/-- Match of SCAN Listener (.+) exists. Port: (.+) at start index i, returning
group 2.  The first group is greedy so the separator is matched at the last
admissible position; the dot after exists matches one arbitrary character;
both groups must be nonempty and group 2 runs to the end of the line. -/
def legacyScanAt (s : Chars) (i : Nat) : Option String :=
  let R := s.drop (i + 14)
  match lastValid
      (fun j => decide (9 ≤ j) && " exists".toList.isSuffixOf (R.take (j - 1)) &&
        decide (j + 7 < R.length))
      (occList " Port: ".toList R) with
  | none => none
  | some j => some (String.mk (R.drop (j + 7)))

/-- re.search of SCAN Listener (.+) exists. Port: (.+) over the line, group 2
(scan_listener, pre-19c format). -/
def legacyScanOf (line : String) : Option String :=
  firstSomeIdx (legacyScanAt line.toList) (occList "SCAN Listener ".toList line.toList)

/-- Match of SCAN name: (.+), Network: ([0-9]+) at start index i: group 1 is
greedy, group 2 needs at least one digit and is a maximal digit run. -/
def scanNameAt (s : Chars) (i : Nat) : Option (String × String) :=
  let R := s.drop (i + 11)
  match lastValid
      (fun j => decide (1 ≤ j) && !(digitRun (R.drop (j + 11))).isEmpty)
      (occList ", Network: ".toList R) with
  | none => none
  | some j => some (String.mk (R.take j), String.mk (digitRun (R.drop (j + 11))))

/-- re.search of SCAN name: (.+), Network: ([0-9]+) over the line (get_scans). -/
def scanNameOf (line : String) : Option (String × String) :=
  firstSomeIdx (scanNameAt line.toList) (occList "SCAN name: ".toList line.toList)

/-- Match of SCAN [0-9]+ (IPv[46]) VIP: (.+) at start index i: a maximal digit
run, the family literal, and a nonempty greedy address group. -/
def scanVipAt (s : Chars) (i : Nat) : Option (Fam × String) :=
  let rest := s.drop (i + 5)
  let r := digitRun rest
  let after := rest.drop r.length
  if r.isEmpty then none
  else if " IPv4 VIP: ".toList.isPrefixOf after then
    (if (after.drop 11).isEmpty then none else some (Fam.v4, String.mk (after.drop 11)))
  else if " IPv6 VIP: ".toList.isPrefixOf after then
    (if (after.drop 11).isEmpty then none else some (Fam.v6, String.mk (after.drop 11)))
  else none

/-- re.search of SCAN [0-9]+ (IPv[46]) VIP: (.+) over the line (get_scans). -/
def scanVipOf (line : String) : Option (Fam × String) :=
  firstSomeIdx (scanVipAt line.toList) (occList "SCAN ".toList line.toList)

/-- Match of Listener (.+) is enabled at start index i: greedy nonempty name. -/
def listenerNameAt (s : Chars) (i : Nat) : Option String :=
  let R := s.drop (i + 9)
  match lastValid (fun j => decide (1 ≤ j)) (occList " is enabled".toList R) with
  | none => none
  | some j => some (String.mk (R.take j))

/-- re.search of Listener (.+) is enabled over the line (local_listener). -/
def listenerNameOf (line : String) : Option String :=
  firstSomeIdx (listenerNameAt line.toList) (occList "Listener ".toList line.toList)

/-- End-anchored version pattern of main: a bracketed nonempty run of digits
and dots closing at the very end of the string; returns the captured group. -/
def bracketVersion (s : String) : Option String :=
  match s.toList.reverse with
  | ']' :: rest =>
      let r := rest.takeWhile dotDigit
      if r.isEmpty then none
      else if (rest.drop r.length).head? = some '[' then some (String.mk r.reverse)
      else none
  | _ => none

/-- Python exceptions that the embedded code can raise. -/
inductive PyErr where
  /-- Python KeyError naming the missing key. -/
  | keyError (key : String)
  /-- Python IndexError from indexing an empty or too-short sequence. -/
  | indexError
  /-- Python AttributeError from calling group on a failed re.search (None). -/
  | attributeNone
  /-- Python TypeError (unreachable in the embedded paths, kept for totality). -/
  | typeError
  /-- Modelled from the spec: the hardened MalformedRecord failure carrying
  the offending raw line; no code path of the source raises it. -/
  | malformedRecord (line : String)
deriving DecidableEq

/-- Values stored in the modelled Python dictionaries: strings or string lists. -/
inductive PyVal where
  | s (v : String)
  | l (v : List String)
deriving DecidableEq

/-- A Python dictionary with string keys, as an insertion-ordered association list. -/
abbrev Dict := List (String × PyVal)

/-- Python dictionary assignment d[k] = v: replace in place, else append. -/
def dictSet (d : List (String × α)) (k : String) (v : α) : List (String × α) :=
  match d with
  | [] => [(k, v)]
  | (k', v') :: rest => if k' = k then (k', v) :: rest else (k', v') :: dictSet rest k v

/-- Python dictionary lookup d[k] as an Option (none models KeyError). -/
def dictGet (d : List (String × α)) (k : String) : Option α :=
  match d with
  | [] => none
  | (k', v') :: rest => if k' = k then some v' else dictGet rest k

/-- Result of one external command invocation: captured stdout on exit 0, or a
non-zero exit status whose output is discarded by the runner. -/
inductive CmdResult where
  | exit0 (stdout : String)
  | exitNonzero
deriving DecidableEq

/-- exec_program_lines: split and strip the captured output; CalledProcessError
is swallowed and becomes the single-empty-string sequence. -/
def exec_program_lines : CmdResult → List String
  | .exit0 out => (pySplitlines out).map pyStrip
  | .exitNonzero => [""]

/-- exec_program: the first element of exec_program_lines; in Python indexing
an empty sequence with [0] raises IndexError. -/
def exec_program (r : CmdResult) : Except PyErr String :=
  match exec_program_lines r with
  | [] => .error PyErr.indexError
  | x :: _ => .ok x

/-- hostname_to_fqdn from the source: a name already containing a dot is kept,
otherwise it is resolved by the external getfqdn collaborator. -/
def hostname_to_fqdn (getfqdn : String → String) (hostname : String) : String :=
  if hostname.toList.contains '.' then hostname else getfqdn hostname

/-- One record built by get_networks; absent dictionary keys are none. -/
structure NetItem where
  network : Option String := none
  ipv4 : Option String := none
  ipv6 : Option String := none
deriving DecidableEq

/-- One record built by get_vips; absent dictionary keys are none. -/
structure VipItem where
  network : Option String := none
  name : Option String := none
  fqdn : Option String := none
  ipv4 : Option String := none
  ipv6 : Option String := none
deriving DecidableEq

/-- One record built by get_scans; every key is created when the record starts. -/
structure ScanItem where
  network : String
  name : String
  fqdn : String
  ipv4 : List String
  ipv6 : List String
deriving DecidableEq

/-- Field extraction line[9:line.find(',')] for the Network: listener line;
Python find returns -1 when no comma occurs, so the slice then ends one
character before the end of the line. -/
def networkField (line : String) : String :=
  match findChar ',' line.toList with
  | some j => pySlice line 9 j
  | none => pySlice line 9 (line.length - 1)

/-- One step of the get_networks line loop: the Network pattern is tried
first, then the two Subnet labels; anything else is ignored. -/
def netStep (st : NetItem × List (String × NetItem)) (line : String) :
    NetItem × List (String × NetItem) :=
  match netExistsOf line with
  | some n =>
      let out := match st.1.network with
        | some k => dictSet st.2 k st.1
        | none => st.2
      ({ network := some n }, out)
  | none =>
      if pyStartswith "Subnet IPv4:" line then ({ st.1 with ipv4 := some (pyDrop line 13) }, st.2)
      else if pyStartswith "Subnet IPv6:" line then ({ st.1 with ipv6 := some (pyDrop line 13) }, st.2)
      else st

/-- Final flush of get_networks: keep the in-progress record if it has an id. -/
def netFinish (st : NetItem × List (String × NetItem)) : List (String × NetItem) :=
  match st.1.network with
  | some k => dictSet st.2 k st.1
  | none => st.2

/-- get_networks: fold the line sequence into the mapping keyed by network id;
the function is total, every Python path of the loop returns normally. -/
def get_networks (lines : List String) : List (String × NetItem) :=
  netFinish (lines.foldl netStep (({} : NetItem), ([] : List (String × NetItem))))

/-- Line loop of get_vips: each VIP exists: line flushes the previous record
and must yield a network number, where a failed search makes group raise
AttributeError; the three field labels use fixed-offset slices. -/
def vipsLoop (getfqdn : String → String) :
    List String → VipItem → List (String × VipItem) → Except PyErr (List (String × VipItem))
  | [], vip, out =>
      .ok (match vip.network with
        | some k => dictSet out k vip
        | none => out)
  | line :: rest, vip, out =>
      if pyStartswith "VIP exists:" line then
        let out' := match vip.network with
          | some k => dictSet out k vip
          | none => out
        match netNumOf line with
        | none => .error PyErr.attributeNone
        | some n => vipsLoop getfqdn rest { network := some n } out'
      else if pyStartswith "VIP Name:" line then
        vipsLoop getfqdn rest
          { vip with name := some (pyDrop line 10),
                     fqdn := some (hostname_to_fqdn getfqdn (pyDrop line 10)) } out
      else if pyStartswith "VIP IPv4 Address:" line then
        vipsLoop getfqdn rest { vip with ipv4 := some (pyDrop line 18) } out
      else if pyStartswith "VIP IPv6 Address:" line then
        vipsLoop getfqdn rest { vip with ipv6 := some (pyDrop line 18) } out
      else vipsLoop getfqdn rest vip out

/-- get_vips over the captured line sequence. -/
def get_vips (getfqdn : String → String) (lines : List String) :
    Except PyErr (List (String × VipItem)) :=
  vipsLoop getfqdn lines {} []

/-- Line loop of get_scans: a SCAN name: line flushes the previous record and
starts a new one with empty address lists; a SCAN VIP line appends to the
list of its family and raises KeyError when no record has been started. -/
def scansLoop (getfqdn : String → String) :
    List String → Option ScanItem → List (String × ScanItem) →
      Except PyErr (List (String × ScanItem))
  | [], item, out =>
      .ok (match item with
        | some it => dictSet out it.network it
        | none => out)
  | line :: rest, item, out =>
      if pyStartswith "SCAN name:" line then
        let out' := match item with
          | some it => dictSet out it.network it
          | none => out
        match scanNameOf line with
        | none => .error PyErr.attributeNone
        | some (nm, net) =>
            scansLoop getfqdn rest
              (some { network := net, name := nm,
                      fqdn := hostname_to_fqdn getfqdn nm, ipv4 := [], ipv6 := [] }) out'
      else
        match scanVipOf line with
        | some (fam, addr) =>
            match item with
            | none =>
                .error (PyErr.keyError (match fam with | Fam.v4 => "ipv4" | Fam.v6 => "ipv6"))
            | some it =>
                match fam with
                | Fam.v4 => scansLoop getfqdn rest (some { it with ipv4 := it.ipv4 ++ [addr] }) out
                | Fam.v6 => scansLoop getfqdn rest (some { it with ipv6 := it.ipv6 ++ [addr] }) out
        | none => scansLoop getfqdn rest item out

/-- get_scans over the captured line sequence. -/
def get_scans (getfqdn : String → String) (lines : List String) :
    Except PyErr (List (String × ScanItem)) :=
  scansLoop getfqdn lines none []

/-- Protocol:port extraction shared verbatim by local_listener and
scan_listener: split the endpoint spec on slash, split each token on colon,
and write the second part under the lower-cased first part; a token without a
colon makes the index access p[1] raise IndexError. -/
def epLoop : List String → Dict → Except PyErr Dict
  | [], cfg => .ok cfg
  | proto :: rest, cfg =>
      match pySplitChar proto ':' with
      | [] => .error PyErr.indexError
      | [_] => .error PyErr.indexError
      | p0 :: p1 :: _ => epLoop rest (dictSet cfg (pyLower p0) (PyVal.s p1))

/-- Endpoint spec split applied to a dictionary. -/
def endpointsPorts (cfg : Dict) (endpoints : String) : Except PyErr Dict :=
  epLoop (pySplitChar endpoints '/') cfg

/-- Phase one of local_listener: collect names of enabled listeners; a line
containing is enabled without a matching name pattern raises AttributeError. -/
def listenerNamesLoop : List String → Except PyErr (List String)
  | [] => .ok []
  | line :: rest =>
      if pyContainsSub "is enabled" line then
        match listenerNameOf line with
        | none => .error PyErr.attributeNone
        | some nm =>
            match listenerNamesLoop rest with
            | .error e => .error e
            | .ok names => .ok (nm :: names)
      else listenerNamesLoop rest

/-- Per-listener parse of the config listener output: fixed-offset fields and
the endpoint split, accumulated into one dictionary. -/
def listenerConfigLoop : List String → Dict → Except PyErr Dict
  | [], cfg => .ok cfg
  | line :: rest, cfg =>
      if pyStartswith "Name:" line then
        listenerConfigLoop rest (dictSet cfg "name" (PyVal.s (pyDrop line 6)))
      else if pyStartswith "Type:" line then
        listenerConfigLoop rest (dictSet cfg "type" (PyVal.s (pyDrop line 6)))
      else if pyStartswith "Network:" line then
        listenerConfigLoop rest (dictSet cfg "network" (PyVal.s (networkField line)))
      else if pyStartswith "End points:" line then
        match endpointsPorts (dictSet cfg "endpoints" (PyVal.s (pyDrop line 12))) (pyDrop line 12) with
        | .error e => .error e
        | .ok cfg2 => listenerConfigLoop rest cfg2
      else listenerConfigLoop rest cfg

/-- Cross-reference step of local_listener: when the config captured a network
key, the VIP of that network is looked up unconditionally, so a network id
absent from the VIP mapping, or a VIP lacking fqdn, ipv4 or ipv6, raises
KeyError; only a config without a network key is returned unchanged. -/
def resolveListener (vips : List (String × VipItem)) (cfg : Dict) : Except PyErr Dict :=
  match dictGet cfg "network" with
  | none => .ok cfg
  | some (PyVal.l _) => .error PyErr.typeError
  | some (PyVal.s n) =>
      match dictGet vips n with
      | none => .error (PyErr.keyError n)
      | some v =>
          match v.fqdn with
          | none => .error (PyErr.keyError "fqdn")
          | some f =>
              match v.ipv4 with
              | none => .error (PyErr.keyError "ipv4")
              | some i4 =>
                  match v.ipv6 with
                  | none => .error (PyErr.keyError "ipv6")
                  | some i6 =>
                      .ok (dictSet (dictSet (dictSet cfg "address" (PyVal.s f))
                        "ipv4" (PyVal.s i4)) "ipv6" (PyVal.s i6))

/-- Parse and resolve one listener config output against the VIP mapping. -/
def configListener (vips : List (String × VipItem)) (lines : List String) : Except PyErr Dict :=
  match listenerConfigLoop lines [] with
  | .error e => .error e
  | .ok cfg => resolveListener vips cfg

/-- Map a fallible parse over a list, propagating the first error. -/
def mapExcept (f : α → Except PyErr β) : List α → Except PyErr (List β)
  | [] => .ok []
  | a :: rest =>
      match f a with
      | .error e => .error e
      | .ok b =>
          match mapExcept f rest with
          | .error e => .error e
          | .ok bs => .ok (b :: bs)

/-- local_listener: discover enabled listener names, then parse and resolve
each listener config, where configOut models the per-name command output. -/
def local_listener (vips : List (String × VipItem)) (statusOut : List String)
    (configOut : String → List String) : Except PyErr (List Dict) :=
  match listenerNamesLoop statusOut with
  | .error e => .error e
  | .ok names => mapExcept (fun nm => configListener vips (configOut nm)) names

/-- Endpoint extraction of scan_listener: the 19c Endpoints format is tried
first, then the pre-19c SCAN Listener Port format. -/
def scanEndpointsOf (line : String) : Option String :=
  match endpoints19cOf line with
  | some e => some e
  | none => legacyScanOf line

/-- Inner line loop of scan_listener for one network id: stop at the first
line with a truthy endpoint spec, build the record from the SCAN entity of
that network (KeyError when the SCAN mapping has no entry), and split the
spec into protocol:port entries; without a match the network yields nothing. -/
def scanListenerForNetwork (scans : List (String × ScanItem)) (n : String) :
    List String → Except PyErr (Option Dict)
  | [] => .ok none
  | line :: rest =>
      match scanEndpointsOf line with
      | none => scanListenerForNetwork scans n rest
      | some e =>
          if e = "" then scanListenerForNetwork scans n rest
          else
            match dictGet scans n with
            | none => .error (PyErr.keyError n)
            | some sc =>
                match endpointsPorts
                    [("network", PyVal.s n), ("scan_address", PyVal.s sc.fqdn),
                     ("endpoints", PyVal.s e), ("ipv4", PyVal.l sc.ipv4),
                     ("ipv6", PyVal.l sc.ipv6)] e with
                | .error err => .error err
                | .ok d => .ok (some d)

/-- Outer loop of scan_listener over the known network ids. -/
def scanListenersLoop (scans : List (String × ScanItem)) (cmdOut : String → List String) :
    List String → List (String × Dict) → Except PyErr (List (String × Dict))
  | [], out => .ok out
  | n :: ns, out =>
      match scanListenerForNetwork scans n (cmdOut n) with
      | .error e => .error e
      | .ok none => scanListenersLoop scans cmdOut ns out
      | .ok (some d) => scanListenersLoop scans cmdOut ns (dictSet out n d)

/-- scan_listener: one record per network whose output yields an endpoint
spec, keyed by network id; cmdOut models the per-network command output. -/
def scan_listener (networks : List (String × NetItem)) (scans : List (String × ScanItem))
    (cmdOut : String → List String) : Except PyErr (List (String × Dict)) :=
  scanListenersLoop scans cmdOut (networks.map Prod.fst) []

/-- Mode detection of main: Python bool of the node-list line sequence, true
whenever the list is non-empty, including the single-empty-string sequence. -/
def iscrs_of (olsnodesOut : List String) : Bool :=
  !olsnodesOut.isEmpty

/-- The scan_listener entry of the assembled facts: the resolved records in
full cluster mode, the empty list otherwise. -/
def scanListenerFacts (iscrs : Bool) (resolved : List Dict) : List Dict :=
  if iscrs then resolved else []

/-- One restart-mode version sub-query of main: a successful bracket
extraction is stored under the specific key and overwrites the generic
version key; a failed extraction stores the raw string under the key only. -/
def versionStep (facts : List (String × String)) (key out : String) : List (String × String) :=
  match bracketVersion out with
  | some tok => dictSet (dictSet facts key tok) "version" tok
  | none => dictSet facts key out

/-- Restart-mode version facts of main: the four sub-queries in their fixed
order, applied to the four captured output strings. -/
def restart_version_facts (rv rp sv sp : String) : List (String × String) :=
  versionStep (versionStep (versionStep (versionStep [] "releaseversion" rv)
    "releasepatch" rp) "softwareversion" sv) "softwarepatch" sp

/-- Last defined value in a list of optional extraction results. -/
def lastSome : List (Option String) → Option String
  | [] => none
  | o :: rest =>
      match lastSome rest with
      | some v => some v
      | none => o

/-- Decidable equality of command results wrapped in Except. -/
instance {ε α : Type} [DecidableEq ε] [DecidableEq α] : DecidableEq (Except ε α) := fun x y =>
  match x, y with
  | .error a, .error b =>
      match decEq a b with
      | isTrue h => isTrue (h ▸ rfl)
      | isFalse h => isFalse fun hh => h (Except.error.inj hh)
  | .ok a, .ok b =>
      match decEq a b with
      | isTrue h => isTrue (h ▸ rfl)
      | isFalse h => isFalse fun hh => h (Except.ok.inj hh)
  | .error _, .ok _ => isFalse fun hh => Except.noConfusion hh
  | .ok _, .error _ => isFalse fun hh => Except.noConfusion hh

/-- Lookup after assignment at the same key. -/
theorem dictGet_dictSet_self {α : Type} (d : List (String × α)) (k : String) (v : α) :
    dictGet (dictSet d k v) k = some v := by
  induction d with
  | nil => simp [dictSet, dictGet]
  | cons hd t ih =>
      obtain ⟨k', v'⟩ := hd
      by_cases hk : k' = k
      · simp [dictSet, dictGet, hk]
      · simp [dictSet, dictGet, hk, ih]

/-- Lookup after assignment at a different key. -/
theorem dictGet_dictSet_ne {α : Type} (d : List (String × α)) (k k' : String) (v : α)
    (h : k' ≠ k) : dictGet (dictSet d k v) k' = dictGet d k' := by
  induction d with
  | nil => simp [dictSet, dictGet, Ne.symm h]
  | cons hd t ih =>
      obtain ⟨k0, v0⟩ := hd
      by_cases hk : k0 = k
      · subst hk
        simp [dictSet, dictGet, Ne.symm h]
      · simp [dictSet, dictGet, hk, ih]

/-- C1 (amended): a genuinely empty node-list output gives full cluster mode
false and an empty scan-listener list in the assembled facts regardless of
the resolved records, while the single-empty-string sequence returned by the
runner on non-zero exit is a non-empty Python list and gives mode true. -/
theorem mode_flag_no_data :
    iscrs_of ([] : List String) = false ∧
    (∀ resolved : List Dict, scanListenerFacts (iscrs_of []) resolved = []) ∧
    iscrs_of [""] = true :=
  ⟨rfl, fun _ => rfl, rfl⟩

/-- C1 counterexample: a non-zero exit yields the single-empty-string
sequence, a no-data result under the runner contract, yet the mode flag
computed from it is true, not false as the claim states. -/
theorem mode_flag_nonzero_exit_cex :
    exec_program_lines CmdResult.exitNonzero = [""] ∧ iscrs_of [""] = true := by
  decide

/-- C5 (amended): the generic version key of the restart-mode facts equals
the bracket extraction of the last sub-query in the fixed order whose
extraction succeeded, every successful match overwriting it, and the key is
absent when no sub-query matches. -/
theorem restart_version_last_match (rv rp sv sp : String) :
    dictGet (restart_version_facts rv rp sv sp) "version" =
      lastSome [bracketVersion rv, bracketVersion rp, bracketVersion sv, bracketVersion sp] := by
  cases h1 : bracketVersion rv <;> cases h2 : bracketVersion rp <;>
    cases h3 : bracketVersion sv <;> cases h4 : bracketVersion sp <;>
      simp [restart_version_facts, versionStep, h1, h2, h3, h4, lastSome, dictGet, dictSet]

/-- C5 counterexample: with two successful extractions the generic version
key holds the token of the second matched sub-query, not the token of the
first, so later successful matches do overwrite it. -/
theorem restart_version_overwrite_cex :
    bracketVersion "x [1.0]" = some "1.0" ∧
    bracketVersion "y [2.0]" = some "2.0" ∧
    dictGet (restart_version_facts "x [1.0]" "y [2.0]" "z" "w") "version" = some "2.0" ∧
    some "2.0" ≠ (some "1.0" : Option String) := by
  decide

/-- C7: the End points spec TCP:1521/TCPS:1522 parses into exactly the
protocol entries tcp and tcps carrying ports 1521 and 1522, keyed by
lower-cased protocol, and no other protocol key is present. -/
theorem endpoints_round_trip :
    endpointsPorts [] "TCP:1521/TCPS:1522" =
      .ok [("tcp", PyVal.s "1521"), ("tcps", PyVal.s "1522")] ∧
    dictGet [("tcp", PyVal.s "1521"), ("tcps", PyVal.s "1522")] "tcp" = some (PyVal.s "1521") ∧
    dictGet [("tcp", PyVal.s "1521"), ("tcps", PyVal.s "1522")] "tcps" = some (PyVal.s "1522") ∧
    (∀ k : String, k ≠ "tcp" → k ≠ "tcps" →
      dictGet [("tcp", PyVal.s "1521"), ("tcps", PyVal.s "1522")] k = none) := by
  refine ⟨by decide, by decide, by decide, ?_⟩
  intro k h1 h2
  simp [dictGet, Ne.symm h1, Ne.symm h2]

/-- C7 witness: the theorem applied at a protocol key outside the mapping. -/
theorem endpoints_round_trip_witness :
    dictGet [("tcp", PyVal.s "1521"), ("tcps", PyVal.s "1522")] "udp" = none :=
  endpoints_round_trip.2.2.2 "udp" (by decide) (by decide)

/-- C10 (amended): zero exit with no stdout yields the empty sequence, on
which exec_program raises IndexError; non-zero exit yields the
single-empty-string sequence, on which exec_program returns the empty
string; exec_program returns a value exactly when exec_program_lines is
non-empty, that is when the command produced at least one output line or
exited non-zero. -/
theorem exec_program_empty_output :
    exec_program_lines (CmdResult.exit0 "") = [] ∧
    exec_program (CmdResult.exit0 "") = .error PyErr.indexError ∧
    exec_program_lines CmdResult.exitNonzero = [""] ∧
    exec_program CmdResult.exitNonzero = .ok "" ∧
    (∀ r : CmdResult, exec_program_lines r ≠ [] → ∃ s, exec_program r = .ok s) ∧
    (∀ (r : CmdResult) (s : String), exec_program r = .ok s → exec_program_lines r ≠ []) := by
  refine ⟨by decide, by decide, by decide, by decide, ?_, ?_⟩
  · intro r h
    cases hl : exec_program_lines r with
    | nil => exact absurd hl h
    | cons x t => exact ⟨x, by simp [exec_program, hl]⟩
  · intro r s h hl
    simp [exec_program, hl] at h

/-- C10 witness: the theorem instantiated at a non-zero exit. -/
theorem exec_program_empty_output_witness :
    ∃ s, exec_program CmdResult.exitNonzero = .ok s :=
  exec_program_empty_output.2.2.2.2.1 CmdResult.exitNonzero (by decide)

/-- C10 counterexample: a command exiting 0 whose stdout is a single blank
line also produces the single-empty-string sequence, although its exit
status was zero, so that value does not arise only on non-zero exit. -/
theorem exec_program_lines_blank_line_cex :
    exec_program_lines (CmdResult.exit0 "\n") = [""] ∧
    CmdResult.exit0 "\n" ≠ CmdResult.exitNonzero := by
  decide

/-- C2 (amended): a listener config with no captured network key is returned
unchanged by the cross-reference step; one whose captured network id is
absent from the VIP mapping makes the parse fail with a KeyError naming that
id, instead of completing with the address fields unset; one whose id is
present, with the VIP fields set, gets address, ipv4 and ipv6 copied from
that VIP. -/
theorem listener_vip_resolution :
    (∀ (vips : List (String × VipItem)) (lines : List String) (cfg : Dict),
        listenerConfigLoop lines [] = .ok cfg → dictGet cfg "network" = none →
        configListener vips lines = .ok cfg) ∧
    (∀ (vips : List (String × VipItem)) (lines : List String) (cfg : Dict) (n : String),
        listenerConfigLoop lines [] = .ok cfg → dictGet cfg "network" = some (PyVal.s n) →
        dictGet vips n = none →
        configListener vips lines = .error (PyErr.keyError n)) ∧
    (∀ (vips : List (String × VipItem)) (lines : List String) (cfg : Dict) (n : String)
        (v : VipItem) (f i4 i6 : String),
        listenerConfigLoop lines [] = .ok cfg → dictGet cfg "network" = some (PyVal.s n) →
        dictGet vips n = some v → v.fqdn = some f → v.ipv4 = some i4 → v.ipv6 = some i6 →
        ∃ cfg2, configListener vips lines = .ok cfg2 ∧
          dictGet cfg2 "address" = some (PyVal.s f) ∧
          dictGet cfg2 "ipv4" = some (PyVal.s i4) ∧
          dictGet cfg2 "ipv6" = some (PyVal.s i6)) := by
  refine ⟨?_, ?_, ?_⟩
  · intro vips lines cfg hp hn
    simp [configListener, hp, resolveListener, hn]
  · intro vips lines cfg n hp hn hv
    simp [configListener, hp, resolveListener, hn, hv]
  · intro vips lines cfg n v f i4 i6 hp hn hv hf h4 h6
    refine ⟨dictSet (dictSet (dictSet cfg "address" (PyVal.s f)) "ipv4" (PyVal.s i4))
      "ipv6" (PyVal.s i6), ?_, ?_, ?_, ?_⟩
    · simp [configListener, hp, resolveListener, hn, hv, hf, h4, h6]
    · rw [dictGet_dictSet_ne _ _ _ _ (by decide), dictGet_dictSet_ne _ _ _ _ (by decide),
        dictGet_dictSet_self]
    · rw [dictGet_dictSet_ne _ _ _ _ (by decide), dictGet_dictSet_self]
    · rw [dictGet_dictSet_self]

/-- C2 witness: the copy branch of the theorem at a concrete config whose
network id 1 is present in the VIP mapping. -/
theorem listener_vip_resolution_witness :
    ∃ cfg2,
      configListener
        [("1", ({ network := some "1", name := some "vip1.example.com", fqdn := some "vip1.example.com", ipv4 := some "10.0.0.5", ipv6 := some "::5" } : VipItem))]
        ["Network: 1, x"] = .ok cfg2 ∧
      dictGet cfg2 "address" = some (PyVal.s "vip1.example.com") ∧
      dictGet cfg2 "ipv4" = some (PyVal.s "10.0.0.5") ∧
      dictGet cfg2 "ipv6" = some (PyVal.s "::5") :=
  listener_vip_resolution.2.2
    [("1", ({ network := some "1", name := some "vip1.example.com", fqdn := some "vip1.example.com", ipv4 := some "10.0.0.5", ipv6 := some "::5" } : VipItem))]
    ["Network: 1, x"] [("network", PyVal.s "1")] "1"
    ({ network := some "1", name := some "vip1.example.com", fqdn := some "vip1.example.com", ipv4 := some "10.0.0.5", ipv6 := some "::5" } : VipItem)
    "vip1.example.com" "10.0.0.5" "::5"
    (by decide) (by decide) (by decide) rfl rfl rfl

/-- C2 counterexample: a listener that captured network id 2 while the VIP
mapping is empty makes the parse fail with a KeyError instead of completing
with the address fields unset. -/
theorem listener_missing_vip_cex :
    configListener [] ["Network: 2, x"] = .error (PyErr.keyError "2") := by
  decide

/-- Ignored lines leave the network fold state unchanged. -/
theorem netStep_ignored (st : NetItem × List (String × NetItem)) (line : String)
    (h1 : netExistsOf line = none) (h2 : pyStartswith "Subnet IPv4:" line = false)
    (h3 : pyStartswith "Subnet IPv6:" line = false) : netStep st line = st := by
  simp [netStep, h1, h2, h3]

/-- A fold over ignored lines only is the identity on the fold state. -/
theorem netFold_ignored :
    ∀ lines : List String,
      (∀ l ∈ lines, netExistsOf l = none ∧ pyStartswith "Subnet IPv4:" l = false ∧
        pyStartswith "Subnet IPv6:" l = false) →
      ∀ st : NetItem × List (String × NetItem), lines.foldl netStep st = st := by
  intro lines
  induction lines with
  | nil => intro _ st; rfl
  | cons l rest ih =>
      intro h st
      have hl := h l (List.mem_cons_self l rest)
      rw [List.foldl_cons, netStep_ignored st l hl.1 hl.2.1 hl.2.2]
      exact ih (fun x hx => h x (List.mem_cons_of_mem l hx)) st

/-- C9: the network parser is total by construction (a plain function on line
sequences); a line matching neither the Network pattern nor one of the two
Subnet labels is ignored, so inserting or removing it does not change the
result, and an input with no matching line yields the empty mapping. -/
theorem network_parser_ignores_unmatched :
    (∀ (l1 l2 : List String) (l : String),
        netExistsOf l = none → pyStartswith "Subnet IPv4:" l = false →
        pyStartswith "Subnet IPv6:" l = false →
        get_networks (l1 ++ l :: l2) = get_networks (l1 ++ l2)) ∧
    (∀ lines : List String,
        (∀ l ∈ lines, netExistsOf l = none ∧ pyStartswith "Subnet IPv4:" l = false ∧
          pyStartswith "Subnet IPv6:" l = false) →
        get_networks lines = []) := by
  constructor
  · intro l1 l2 l h1 h2 h3
    unfold get_networks
    rw [List.foldl_append, List.foldl_append, List.foldl_cons, netStep_ignored _ l h1 h2 h3]
  · intro lines h
    unfold get_networks
    rw [netFold_ignored lines h]
    rfl

/-- C9 witness: inserting one unmatched line into the empty input. -/
theorem network_parser_ignores_unmatched_witness :
    get_networks ([] ++ "hello" :: []) = get_networks ([] ++ []) :=
  network_parser_ignores_unmatched.1 [] [] "hello" (by decide) (by decide) (by decide)

/-- C8: a line matching the SCAN IPv4 VIP pattern appends its address to the
ipv4 list of the current record rather than overwriting it, and a well-formed
block with two SCAN 1 IPv4 VIP lines accumulates exactly the two addresses
in input order. -/
theorem scan_ipv4_append :
    (∀ (getfqdn : String → String) (line : String) (rest : List String) (it : ScanItem)
        (out : List (String × ScanItem)) (a : String),
        pyStartswith "SCAN name:" line = false →
        scanVipOf line = some (Fam.v4, a) →
        scansLoop getfqdn (line :: rest) (some it) out =
          scansLoop getfqdn rest (some { it with ipv4 := it.ipv4 ++ [a] }) out) ∧
    get_scans (fun s => s)
      ["SCAN name: scan1.example.com, Network: 1",
       "SCAN 1 IPv4 VIP: 10.0.0.1", "SCAN 1 IPv4 VIP: 10.0.0.2"] =
      .ok [("1", ({ network := "1", name := "scan1.example.com", fqdn := "scan1.example.com", ipv4 := ["10.0.0.1", "10.0.0.2"], ipv6 := [] } : ScanItem))] := by
  constructor
  · intro getfqdn line rest it out a h1 h2
    simp [scansLoop, h1, h2]
  · decide

/-- C8 witness: the append step of the theorem at a concrete line and record. -/
theorem scan_ipv4_append_witness :
    scansLoop (fun s => s) ["SCAN 1 IPv4 VIP: 10.0.0.9"]
      (some ({ network := "1", name := "n.x", fqdn := "n.x", ipv4 := [], ipv6 := [] } : ScanItem)) [] =
    scansLoop (fun s => s) []
      (some ({ network := "1", name := "n.x", fqdn := "n.x", ipv4 := ["10.0.0.9"], ipv6 := [] } : ScanItem)) [] :=
  scan_ipv4_append.1 (fun s => s) "SCAN 1 IPv4 VIP: 10.0.0.9" []
    ({ network := "1", name := "n.x", fqdn := "n.x", ipv4 := [], ipv6 := [] } : ScanItem)
    [] "10.0.0.9" (by decide) (by decide)

/-- C6: the two SCAN-listener line formats converge: the legacy Port line
and the current Endpoints line extract the same endpoint spec, the records
built from either single-line output are structurally equal and carry the
endpoint string with its protocol-port entry, the current format is tried
first, and the legacy format is consulted only when the current is absent. -/
theorem scan_listener_dual_format :
    scanEndpointsOf "SCAN Listener LISTENER_SCAN1 exists. Port: TCP:1521" = some "TCP:1521" ∧
    scanEndpointsOf "Endpoints: TCP:1521" = some "TCP:1521" ∧
    scanListenerForNetwork [("1", ({ network := "1", name := "scan1.example.com", fqdn := "scan1.example.com", ipv4 := ["10.0.0.1"], ipv6 := [] } : ScanItem))] "1"
        ["SCAN Listener LISTENER_SCAN1 exists. Port: TCP:1521"] =
      scanListenerForNetwork [("1", ({ network := "1", name := "scan1.example.com", fqdn := "scan1.example.com", ipv4 := ["10.0.0.1"], ipv6 := [] } : ScanItem))] "1"
        ["Endpoints: TCP:1521"] ∧
    scanListenerForNetwork [("1", ({ network := "1", name := "scan1.example.com", fqdn := "scan1.example.com", ipv4 := ["10.0.0.1"], ipv6 := [] } : ScanItem))] "1"
        ["Endpoints: TCP:1521"] =
      .ok (some [("network", PyVal.s "1"), ("scan_address", PyVal.s "scan1.example.com"), ("endpoints", PyVal.s "TCP:1521"), ("ipv4", PyVal.l ["10.0.0.1"]), ("ipv6", PyVal.l []), ("tcp", PyVal.s "1521")]) ∧
    (∀ line e : String, endpoints19cOf line = some e → scanEndpointsOf line = some e) ∧
    (∀ line : String, endpoints19cOf line = none → scanEndpointsOf line = legacyScanOf line) := by
  refine ⟨by decide, by decide, by decide, by decide, ?_, ?_⟩
  · intro line e h
    simp [scanEndpointsOf, h]
  · intro line h
    simp [scanEndpointsOf, h]

/-- C6 witness: the current-format-first branch at a concrete line. -/
theorem scan_listener_dual_format_witness :
    scanEndpointsOf "Endpoints: X" = some "X" :=
  scan_listener_dual_format.2.2.2.2.1 "Endpoints: X" "X" (by decide)

/-- C3 (amended): a network id with no entry in the SCAN mapping yields no
record and no error when no line of its output carries a truthy endpoint
spec; but when some line does match, the resolution fails with a KeyError
naming the network id instead of silently skipping the network. -/
theorem scan_listener_missing_scan :
    (∀ (scans : List (String × ScanItem)) (n : String) (lines : List String),
        dictGet scans n = none →
        (∀ l ∈ lines, scanEndpointsOf l = none ∨ scanEndpointsOf l = some "") →
        scanListenerForNetwork scans n lines = .ok none) ∧
    (∀ (scans : List (String × ScanItem)) (n : String) (lines : List String),
        dictGet scans n = none →
        (∃ l ∈ lines, ∃ e, scanEndpointsOf l = some e ∧ e ≠ "") →
        scanListenerForNetwork scans n lines = .error (PyErr.keyError n)) := by
  constructor
  · intro scans n lines hs
    induction lines with
    | nil => intro _; rfl
    | cons l rest ih =>
        intro h
        have ih' := ih (fun x hx => h x (List.mem_cons_of_mem l hx))
        rcases h l (List.mem_cons_self l rest) with h0 | h0 <;>
          simp [scanListenerForNetwork, h0, ih']
  · intro scans n lines hs
    induction lines with
    | nil =>
        intro h
        rcases h with ⟨l, hl, _⟩
        exact absurd hl (List.not_mem_nil l)
    | cons l rest ih =>
        intro h
        rcases h with ⟨x, hx, e, he, hne⟩
        rcases List.mem_cons.mp hx with rfl | hx'
        · simp [scanListenerForNetwork, he, hne, hs]
        · cases h0 : scanEndpointsOf l with
          | none =>
              simp only [scanListenerForNetwork, h0]
              exact ih ⟨x, hx', e, he, hne⟩
          | some e0 =>
              by_cases he0 : e0 = ""
              · subst he0
                simp only [scanListenerForNetwork, h0]
                simp only [reduceIte]
                exact ih ⟨x, hx', e, he, hne⟩
              · simp [scanListenerForNetwork, h0, he0, hs]

/-- C3 witness: the failing branch of the theorem at a concrete network. -/
theorem scan_listener_missing_scan_witness :
    scanListenerForNetwork [] "1" ["Endpoints: TCP:1521"] = .error (PyErr.keyError "1") :=
  scan_listener_missing_scan.2 [] "1" ["Endpoints: TCP:1521"] rfl
    ⟨"Endpoints: TCP:1521", List.mem_cons_self _ _, "TCP:1521", by decide, by decide⟩

/-- C3 counterexample: a network id 1 known to the network mapping but with
no SCAN entry, whose per-network output contains a matching Endpoints line,
makes scan_listener fail with a KeyError instead of skipping the network. -/
theorem scan_listener_missing_scan_cex :
    scan_listener [("1", ({ network := some "1" } : NetItem))] []
      (fun _ => ["Endpoints: TCP:1521"]) = .error (PyErr.keyError "1") := by
  decide

/-- A VIP exists line whose network-number pattern fails makes the VIP line
loop raise AttributeError from every state. -/
theorem vipsLoop_attr_error (getfqdn : String → String) :
    ∀ (lines : List String) (vip : VipItem) (out : List (String × VipItem)),
      (∃ l ∈ lines, pyStartswith "VIP exists:" l = true ∧ netNumOf l = none) →
      vipsLoop getfqdn lines vip out = .error PyErr.attributeNone := by
  intro lines
  induction lines with
  | nil =>
      intro vip out h
      rcases h with ⟨l, hl, _⟩
      exact absurd hl (List.not_mem_nil l)
  | cons l rest ih =>
      intro vip out h
      rcases h with ⟨x, hx, hstart, hnum⟩
      rcases List.mem_cons.mp hx with rfl | hx'
      · simp [vipsLoop, hstart, hnum]
      · cases hs : pyStartswith "VIP exists:" l with
        | true =>
            cases hn : netNumOf l with
            | none => simp [vipsLoop, hs, hn]
            | some m =>
                simp only [vipsLoop, hs, hn, if_true]
                exact ih _ _ ⟨x, hx', hstart, hnum⟩
        | false =>
            cases h1 : pyStartswith "VIP Name:" l <;>
              cases h2 : pyStartswith "VIP IPv4 Address:" l <;>
                cases h3 : pyStartswith "VIP IPv6 Address:" l <;>
                  simp only [vipsLoop, hs, h1, h2, h3, Bool.false_eq_true, if_false, if_true] <;>
                    exact ih _ _ ⟨x, hx', hstart, hnum⟩

/-- C4 (amended): when some line starts with VIP exists: but the network
number pattern does not match it, get_vips fails — it neither completes
normally nor drops the record — yet with the AttributeError of calling group
on a failed search, an error that does not carry the offending line, rather
than with a MalformedRecord error naming it. -/
theorem vip_parser_malformed_line (getfqdn : String → String) (lines : List String)
    (h : ∃ l ∈ lines, pyStartswith "VIP exists:" l = true ∧ netNumOf l = none) :
    get_vips getfqdn lines = .error PyErr.attributeNone :=
  vipsLoop_attr_error getfqdn lines {} [] h

/-- C4 witness: the theorem at a concrete malformed VIP line. -/
theorem vip_parser_malformed_line_witness :
    get_vips (fun s => s) ["VIP exists: foo"] = .error PyErr.attributeNone :=
  vip_parser_malformed_line (fun s => s) ["VIP exists: foo"]
    ⟨"VIP exists: foo", List.mem_cons_self _ _, by decide, by decide⟩

/-- C4 counterexample: on the malformed line the parser stops with the
generic AttributeError value, which is not a MalformedRecord error naming
the offending line as the claim requires. -/
theorem vip_parser_malformed_line_cex :
    get_vips (fun s => s) ["VIP exists: foo"] = .error PyErr.attributeNone ∧
    (Except.error PyErr.attributeNone : Except PyErr (List (String × VipItem))) ≠
      Except.error (PyErr.malformedRecord "VIP exists: foo") := by
  decide

end OracleGiFacts
